import Mathlib

/-!
Verification of the profile-management surface of the ocr2md desktop workbench.

The definitions below are a shallow embedding of
`src/apps/desktop/ui/src/components/LayoutShell.tsx`: the profile data types,
the payload conversion pair, the profile-list editing operations and the
load/save handlers, each modelled as a pure state-transition function whose
backend outcome is passed in explicitly.  The encrypted credential vault
backend (the Tauri/Rust side) is not part of the sources; it is modelled
from the specification where a claim needs it, with symbolic encryption.
-/

namespace Ocr2Md

/-- UI-side profile record (`LocalProfile` in `LayoutShell.tsx`, lines 3-10). -/
structure LocalProfile where
  name : String
  provider : String
  baseUrl : String
  apiKey : String
  model : String
  enabled : Bool
deriving DecidableEq, Repr

/-- Wire payload record (`ProviderProfilePayload` in `LayoutShell.tsx`, lines 12-19):
the snake_case shape sent to and received from the backend commands. -/
structure ProviderProfilePayload where
  name : String
  provider : String
  base_url : String
  api_key : String
  model : String
  enabled : Bool
deriving DecidableEq, Repr

/-- Status tone of the status line (`StatusTone`, line 21). -/
inductive StatusTone
  | info
  | success
  | error
deriving DecidableEq, Repr

/-- One entry of the provider select (`providerChoices`, lines 33-39). -/
structure ProviderChoice where
  value : String
  label : String
deriving DecidableEq, Repr

/-- The provider select options (`providerChoices`, lines 33-39). -/
def providerChoices : List ProviderChoice :=
  [ ⟨"openai", "OpenAI"⟩
  , ⟨"claude", "Claude"⟩
  , ⟨"gemini", "Gemini"⟩
  , ⟨"relay", "OpenAI Relay"⟩
  , ⟨"cc-switch", "CC-Switch Relay"⟩ ]

/-- The provider values offered by the UI select. -/
def choiceValues : List String := providerChoices.map (·.value)

/-- The built-in starting profile list (`initialProfiles`, lines 41-50). -/
def initialProfiles : List LocalProfile :=
  [ ⟨"Primary OpenAI", "openai", "https://api.openai.com/v1", "", "gpt-4.1-mini", true⟩ ]

/-- Payload-to-UI conversion (`toLocalProfile`, lines 59-68). -/
def toLocalProfile (payload : ProviderProfilePayload) : LocalProfile :=
  { name := payload.name
  , provider := payload.provider
  , baseUrl := payload.base_url
  , apiKey := payload.api_key
  , model := payload.model
  , enabled := payload.enabled }

/-- UI-to-payload conversion (`toPayload`, lines 70-79). -/
def toPayload (profile : LocalProfile) : ProviderProfilePayload :=
  { name := profile.name
  , provider := profile.provider
  , base_url := profile.baseUrl
  , api_key := profile.apiKey
  , model := profile.model
  , enabled := profile.enabled }

/-- A thrown JavaScript value as seen by the `catch` blocks: `some msg` when the
value is an `Error` carrying `msg` as its message, `none` otherwise. -/
abbrev JsError := Option String

/-- Message of the error thrown by `invokeTauri` when no Tauri runtime is
present (`invokeTauri`, line 84). -/
def tauriUnavailableMessage : String :=
  "Tauri runtime is unavailable in browser preview mode."

/-- Fallback message for a non-`Error` throw during load (line 233). -/
def loadFallbackMessage : String :=
  "Failed to load profiles from encrypted store."

/-- Fallback message for a non-`Error` throw during save (line 252). -/
def saveFallbackMessage : String :=
  "Failed to save profiles into encrypted store."

/-- Status message for a successful load that returned no profiles (line 223). -/
def emptyVaultMessage : String :=
  "No encrypted profiles found. Save one to create your settings vault."

/-- The component state of `LayoutShell` (lines 165-172): the `useState` cells
relevant to profile management. -/
structure UIState where
  passphrase : String
  profiles : List LocalProfile
  activeProfileIndex : Nat
  isWorking : Bool
  statusTone : StatusTone
  statusMessage : String
deriving DecidableEq, Repr

/-- The initial component state (lines 165-172). -/
def initialState : UIState :=
  { passphrase := ""
  , profiles := initialProfiles
  , activeProfileIndex := 0
  , isWorking := false
  , statusTone := .info
  , statusMessage := "Configure provider credentials, then save encrypted profiles." }

/-- `setProfileField` for the `provider` key (lines 188-192): rewrite the
field of the profile at `activeProfileIndex`, leaving the others alone. -/
def setProviderField (s : UIState) (v : String) : UIState :=
  { s with profiles :=
      s.profiles.mapIdx fun i item =>
        if i = s.activeProfileIndex then { item with provider := v } else item }

/-- The profile appended by `addProfile` when the list has `n` entries
(lines 197-204). -/
def newProfileFor (n : Nat) : LocalProfile :=
  { name := "Profile " ++ toString (n + 1)
  , provider := "openai"
  , baseUrl := "https://api.openai.com/v1"
  , apiKey := ""
  , model := "gpt-4.1-mini"
  , enabled := true }

/-- `addProfile` (lines 194-207): append a fresh profile and select it (the
index written is the pre-append length, i.e. the appended position). -/
def addProfile (s : UIState) : UIState :=
  { s with
    profiles := s.profiles ++ [newProfileFor s.profiles.length]
  , activeProfileIndex := s.profiles.length }

/-- `removeProfile` (lines 209-215): a no-op while at most one profile
remains; otherwise drop the profile at `activeProfileIndex` (the source
filters out exactly that index) and move the selection to `max 0 (idx - 1)`,
which on `Nat` is truncated subtraction. -/
def removeProfile (s : UIState) : UIState :=
  if s.profiles.length ≤ 1 then s
  else
    { s with
      profiles := s.profiles.eraseIdx s.activeProfileIndex
    , activeProfileIndex := s.activeProfileIndex - 1 }

/-- `handleLoadProfiles` (lines 217-238) as a transition on the component
state, parametrised by the outcome of the awaited `invokeTauri` call; the
`finally` block clears the working flag on every path. -/
def handleLoadProfiles (s : UIState)
    (result : Except JsError (List ProviderProfilePayload)) : UIState :=
  match result with
  | .ok loaded =>
    if loaded.length = 0 then
      { s with statusTone := .info, statusMessage := emptyVaultMessage, isWorking := false }
    else
      { s with
        profiles := loaded.map toLocalProfile
      , activeProfileIndex := 0
      , statusTone := .success
      , statusMessage := "Loaded " ++ toString loaded.length ++ " encrypted profile(s)."
      , isWorking := false }
  | .error e =>
    { s with
      statusTone := .error
    , statusMessage := e.getD loadFallbackMessage
    , isWorking := false }

/-- The arguments `handleSaveProfiles` passes to the `save_profiles` command
(lines 243-246): the current passphrase and the current profiles mapped
through `toPayload`. -/
def saveInvocation (s : UIState) : String × List ProviderProfilePayload :=
  (s.passphrase, s.profiles.map toPayload)

/-- `handleSaveProfiles` (lines 240-257) as a transition on the component
state, parametrised by the outcome of the awaited `invokeTauri` call. -/
def handleSaveProfiles (s : UIState) (result : Except JsError Unit) : UIState :=
  match result with
  | .ok _ =>
    { s with
      statusTone := .success
    , statusMessage := "Saved " ++ toString s.profiles.length ++ " profile(s) to encrypted storage."
    , isWorking := false }
  | .error e =>
    { s with
      statusTone := .error
    , statusMessage := e.getD saveFallbackMessage
    , isWorking := false }

/-! ### The vault backend, modelled from the specification

The Tauri/Rust side implementing the `load_profiles` and `save_profiles`
commands is not among the sources; only its caller (`LayoutShell.tsx`) is.
The definitions below model it from the specification, with symbolic
authenticated encryption: the envelope keeps the serialized profile list
together with a key tag, and decryption succeeds exactly when the key
re-derived from the supplied passphrase matches the tag. -/

/-- Modelled from the spec: the key-derivation function of the vault backend
(spec §4.2, `save` "derives a symmetric key from passphrase and a freshly
generated random salt"); symbolic, injective in passphrase and salt. -/
def deriveKey (passphrase : String) (salt : Nat) : String :=
  passphrase ++ "/salt:" ++ toString salt

/-- Modelled from the spec: the versioned vault envelope (spec §3,
VaultEnvelope: format version, salt, nonce, ciphertext, authentication tag).
The ciphertext is symbolic: the serialized profile list plus a key tag whose
comparison plays the role of the authentication check. -/
structure VaultEnvelope where
  version : Nat
  salt : Nat
  nonce : Nat
  payload : List ProviderProfilePayload
  tag : String
deriving DecidableEq, Repr

/-- Modelled from the spec: error kind reported when decryption fails
(spec §4.2, "reported as WrongPassphraseOrCorruptData"). -/
def wrongPassphraseMessage : String := "WrongPassphraseOrCorruptData"

/-- Modelled from the spec: error kind reported when a profile list with a
repeated name is saved (spec §3, names "must be unique within one list
(last-write-wins on conflict is disallowed — reject on save)"). -/
def duplicateNamesMessage : String := "DuplicateProfileName"

/-- Modelled from the spec: the backend `save_profiles` command (spec §4.2
`save` and §3). Rejects a list whose names are not pairwise distinct;
otherwise encrypts the serialized list under the key derived from the
passphrase and the fresh salt, and emits the versioned envelope. -/
def backendSave (passphrase : String) (ps : List ProviderProfilePayload)
    (salt nonce : Nat) : Except String VaultEnvelope :=
  if (ps.map (·.name)).Nodup then
    .ok { version := 1, salt := salt, nonce := nonce
        , payload := ps, tag := deriveKey passphrase salt }
  else
    .error duplicateNamesMessage

/-- Modelled from the spec: the backend `load_profiles` command (spec §4.2
`load`): re-derive the key from the stored salt and the given passphrase and
attempt authenticated decryption; a key mismatch is reported as
`WrongPassphraseOrCorruptData`. -/
def backendLoad (passphrase : String) (env : VaultEnvelope) :
    Except String (List ProviderProfilePayload) :=
  if deriveKey passphrase env.salt = env.tag then .ok env.payload
  else .error wrongPassphraseMessage

/-- A complete load run as seen by the UI: when the Tauri runtime is absent
`invokeTauri` throws its fixed error (line 84); otherwise the backend command
runs against the persisted vault (`none` when no vault blob exists yet, in
which case the backend reports an empty profile list, modelled from the
spec's create-on-first-save lifecycle). -/
def loadRun (s : UIState) (available : Bool) (vault : Option VaultEnvelope) : UIState :=
  if available then
    match vault with
    | none => handleLoadProfiles s (.ok [])
    | some env => handleLoadProfiles s ((backendLoad s.passphrase env).mapError some)
  else
    handleLoadProfiles s (.error (some tauriUnavailableMessage))

/-- A complete save run as seen by the UI: when the Tauri runtime is absent
`invokeTauri` throws its fixed error (line 84); otherwise the backend command
receives the invocation arguments of lines 243-246. -/
def saveRun (s : UIState) (available : Bool) (salt nonce : Nat) : UIState :=
  if available then
    handleSaveProfiles s
      (((backendSave (saveInvocation s).1 (saveInvocation s).2 salt nonce).map
        fun _ => ()).mapError some)
  else
    handleSaveProfiles s (.error (some tauriUnavailableMessage))

/-! ### Editing operation sequences -/

/-- A profile-list editing operation of the settings pane. -/
inductive ProfileOp
  | add
  | remove
deriving DecidableEq, Repr

/-- Apply one editing operation to the component state. -/
def applyOp (s : UIState) : ProfileOp → UIState
  | .add => addProfile s
  | .remove => removeProfile s

/-- Run a sequence of editing operations from a starting state. -/
def runOps (s : UIState) (ops : List ProfileOp) : UIState :=
  ops.foldl applyOp s

/-- The state invariant of the settings pane: the profile list is non-empty
and the active index denotes one of its entries. -/
def ProfileInvariant (s : UIState) : Prop :=
  0 < s.profiles.length ∧ s.activeProfileIndex < s.profiles.length

instance (s : UIState) : Decidable (ProfileInvariant s) :=
  inferInstanceAs
    (Decidable (0 < s.profiles.length ∧ s.activeProfileIndex < s.profiles.length))

/-! ### Observational equivalence up to secrets -/

/-- The non-secret fields of a UI profile: everything but the API key. -/
def publicProfile (p : LocalProfile) : String × String × String × String × Bool :=
  (p.name, p.provider, p.baseUrl, p.model, p.enabled)

/-- The non-secret fields of a wire payload: everything but the API key. -/
def publicPayload (q : ProviderProfilePayload) : String × String × String × String × Bool :=
  (q.name, q.provider, q.base_url, q.model, q.enabled)

/-- Two UI profile lists agree on everything except possibly API keys. -/
def publicAgree (l₁ l₂ : List LocalProfile) : Prop :=
  l₁.map publicProfile = l₂.map publicProfile

/-- Two payload lists agree on everything except possibly API keys. -/
def payloadPublicAgree (l₁ l₂ : List ProviderProfilePayload) : Prop :=
  l₁.map publicPayload = l₂.map publicPayload

/-- Two persisted vaults are in corresponding states for two runs: both
absent, or both present with contents agreeing up to API keys and the two
passphrases either both matching or both failing their envelope's tag. -/
def vaultsCorrespond (v₁ v₂ : Option VaultEnvelope) (pass₁ pass₂ : String) : Prop :=
  (v₁ = none ∧ v₂ = none) ∨
    (∃ e₁ e₂, v₁ = some e₁ ∧ v₂ = some e₂ ∧
      payloadPublicAgree e₁.payload e₂.payload ∧
      (deriveKey pass₁ e₁.salt = e₁.tag ↔ deriveKey pass₂ e₂.salt = e₂.tag))

/-! ### Claim theorems -/

/-- A concrete profile used to instantiate universally quantified theorems. -/
def sampleProfile : LocalProfile :=
  { name := "Work", provider := "openai", baseUrl := "https://api.openai.com/v1"
  , apiKey := "sk-abc123", model := "gpt-4.1-mini", enabled := true }

/-- The four-member provider enumeration as the specification words it (§3:
official-OpenAI-shaped, official-Anthropic-shaped, official-Gemini-shaped,
generic OpenAI-compatible relay), mapped onto the UI's provider values
(openai, claude, gemini, relay).  Stated from the spec's words, for
comparison with the source's `providerChoices`. -/
def specProviderKinds : List String := ["openai", "claude", "gemini", "relay"]

/-- Every profile of the list has a provider value from the UI select set. -/
def allProvidersInChoices (l : List LocalProfile) : Prop :=
  ∀ p ∈ l, p.provider ∈ choiceValues

instance (l : List LocalProfile) : Decidable (allProvidersInChoices l) :=
  inferInstanceAs (Decidable (∀ p ∈ l, p.provider ∈ choiceValues))

/-- A state whose single profile carries one API key, under one passphrase. -/
def secretStateA : UIState :=
  { initialState with
    passphrase := "passphrase-one"
  , profiles := [{ sampleProfile with apiKey := "sk-secret-A" }] }

/-- The same state as `secretStateA` except for the API key and passphrase. -/
def secretStateB : UIState :=
  { initialState with
    passphrase := "passphrase-two"
  , profiles := [{ sampleProfile with apiKey := "sk-secret-B" }] }

/-- C1: loading what was saved yields the original list — whenever
`backendSave` accepts a profile list and emits an envelope, `backendLoad`
under the same passphrase returns exactly that list; and the UI conversion
pair satisfies `toLocalProfile (toPayload p) = p` for every profile `p`, so
no field is lost or altered crossing the operation surface. -/
theorem c1_save_load_round_trip (pass : String) (ps : List ProviderProfilePayload)
    (salt nonce : Nat) (env : VaultEnvelope)
    (h : backendSave pass ps salt nonce = .ok env) (p : LocalProfile) :
    backendLoad pass env = .ok ps ∧ toLocalProfile (toPayload p) = p := by
  refine ⟨?_, rfl⟩
  unfold backendSave at h
  split at h
  · cases h
    simp [backendLoad]
  · cases h

/-- Witness for C1 at a concrete passphrase, salt, nonce and profile. -/
theorem c1_save_load_round_trip_witness :
    backendLoad "hunter2"
        { version := 1, salt := 7, nonce := 9
        , payload := [toPayload sampleProfile]
        , tag := deriveKey "hunter2" 7 } = .ok [toPayload sampleProfile] ∧
      toLocalProfile (toPayload sampleProfile) = sampleProfile :=
  c1_save_load_round_trip "hunter2" [toPayload sampleProfile] 7 9 _ (by rfl) sampleProfile

/-- C4: a successful load returning a non-empty list replaces the whole
profile state with the returned profiles converted field-for-field in the
returned order, and resets the active selection to the first profile. -/
theorem c4_load_replaces_profiles (s : UIState)
    (loaded : List ProviderProfilePayload) (h : loaded ≠ []) :
    (handleLoadProfiles s (.ok loaded)).profiles = loaded.map toLocalProfile ∧
    (handleLoadProfiles s (.ok loaded)).activeProfileIndex = 0 ∧
    (handleLoadProfiles s (.ok loaded)).statusTone = .success ∧
    (∀ i : Nat,
      (handleLoadProfiles s (.ok loaded)).profiles.get? i
        = (loaded.get? i).map toLocalProfile) ∧
    (∀ q : ProviderProfilePayload,
      (toLocalProfile q).name = q.name ∧ (toLocalProfile q).provider = q.provider ∧
      (toLocalProfile q).baseUrl = q.base_url ∧ (toLocalProfile q).apiKey = q.api_key ∧
      (toLocalProfile q).model = q.model ∧ (toLocalProfile q).enabled = q.enabled) := by
  have hlen : ¬ loaded.length = 0 := by simpa [List.length_eq_zero] using h
  simp [handleLoadProfiles, hlen, List.getElem?_map, toLocalProfile]

/-- Witness for C4 at a concrete state and loaded list. -/
theorem c4_load_replaces_profiles_witness :
    (handleLoadProfiles initialState (.ok [toPayload sampleProfile])).profiles
        = [toPayload sampleProfile].map toLocalProfile ∧
      (handleLoadProfiles initialState (.ok [toPayload sampleProfile])).activeProfileIndex = 0 :=
  ⟨(c4_load_replaces_profiles initialState [toPayload sampleProfile] (by simp)).1,
   (c4_load_replaces_profiles initialState [toPayload sampleProfile] (by simp)).2.1⟩

/-- C5: every save invocation passes the current passphrase and the complete
current profile list, each profile serialized with exactly the snake_case
fields name, provider, base_url, api_key, model and enabled, with no profile
omitted, reordered or added. -/
theorem c5_save_sends_full_list (s : UIState) :
    (saveInvocation s).1 = s.passphrase ∧
    (saveInvocation s).2.length = s.profiles.length ∧
    (∀ i : Nat, (saveInvocation s).2.get? i = (s.profiles.get? i).map toPayload) ∧
    (∀ p : LocalProfile,
      (toPayload p).name = p.name ∧ (toPayload p).provider = p.provider ∧
      (toPayload p).base_url = p.baseUrl ∧ (toPayload p).api_key = p.apiKey ∧
      (toPayload p).model = p.model ∧ (toPayload p).enabled = p.enabled) := by
  simp [saveInvocation, List.getElem?_map, toPayload]

/-- C8: a throwing load leaves the profile list, the active index and the
passphrase exactly as they were; only the status tone and message change, and
the working flag ends up false. -/
theorem c8_failed_load_preserves_state (s : UIState) (e : JsError) :
    (handleLoadProfiles s (.error e)).profiles = s.profiles ∧
    (handleLoadProfiles s (.error e)).activeProfileIndex = s.activeProfileIndex ∧
    (handleLoadProfiles s (.error e)).passphrase = s.passphrase ∧
    (handleLoadProfiles s (.error e)).isWorking = false ∧
    (handleLoadProfiles s (.error e)).statusTone = .error ∧
    (handleLoadProfiles s (.error e)).statusMessage = e.getD loadFallbackMessage := by
  simp [handleLoadProfiles]

/-- C9: a successful load returning an empty list leaves the displayed
profile list and active index entirely unchanged — in particular the list
stays non-empty — and only updates the status line. -/
theorem c9_empty_load_keeps_profiles (s : UIState) (hne : 0 < s.profiles.length) :
    (handleLoadProfiles s (.ok [])).profiles = s.profiles ∧
    (handleLoadProfiles s (.ok [])).activeProfileIndex = s.activeProfileIndex ∧
    (handleLoadProfiles s (.ok [])).statusTone = .info ∧
    (handleLoadProfiles s (.ok [])).statusMessage = emptyVaultMessage ∧
    0 < (handleLoadProfiles s (.ok [])).profiles.length := by
  refine ⟨?_, ?_, ?_, ?_, ?_⟩ <;> simp [handleLoadProfiles, hne]

/-- Witness for C9 at the initial state. -/
theorem c9_empty_load_keeps_profiles_witness :
    (handleLoadProfiles initialState (.ok [])).profiles = initialState.profiles ∧
      (handleLoadProfiles initialState (.ok [])).statusMessage = emptyVaultMessage :=
  ⟨(c9_empty_load_keeps_profiles initialState (by decide)).1,
   (c9_empty_load_keeps_profiles initialState (by decide)).2.2.2.1⟩

/-- Helper: each editing operation preserves the settings-pane invariant. -/
theorem applyOp_profileInvariant (s : UIState) (op : ProfileOp)
    (h : ProfileInvariant s) : ProfileInvariant (applyOp s op) := by
  obtain ⟨h1, h2⟩ := h
  cases op with
  | add =>
    unfold applyOp addProfile ProfileInvariant
    simp only [List.length_append, List.length_cons, List.length_nil]
    omega
  | remove =>
    unfold applyOp removeProfile
    by_cases hle : s.profiles.length ≤ 1
    · rw [if_pos hle]
      exact ⟨h1, h2⟩
    · rw [if_neg hle]
      unfold ProfileInvariant
      simp only [List.length_eraseIdx, h2, if_true]
      omega

/-- Helper: every operation sequence preserves the settings-pane invariant. -/
theorem runOps_profileInvariant (s : UIState) (ops : List ProfileOp)
    (h : ProfileInvariant s) : ProfileInvariant (runOps s ops) := by
  induction ops generalizing s with
  | nil => exact h
  | cons op rest ih =>
    simpa [runOps] using ih (applyOp s op) (applyOp_profileInvariant s op h)

/-- C10: from the initial single-profile state, every sequence of add and
remove operations keeps the profile list non-empty and the active index a
valid position; `addProfile` selects the newly appended (last) profile, and
`removeProfile` is a no-op when exactly one profile remains. -/
theorem c10_editing_invariant (ops : List ProfileOp) (s : UIState)
    (h1 : s.profiles.length = 1) :
    ProfileInvariant (runOps initialState ops) ∧
    (∀ t : UIState,
      (addProfile t).activeProfileIndex + 1 = (addProfile t).profiles.length) ∧
    removeProfile s = s := by
  refine ⟨runOps_profileInvariant initialState ops (by decide), ?_, ?_⟩
  · intro t; simp [addProfile]
  · simp [removeProfile, h1]

/-- Witness for C10 on a concrete operation sequence and the initial state. -/
theorem c10_editing_invariant_witness :
    ProfileInvariant (runOps initialState
        [ProfileOp.add, ProfileOp.add, ProfileOp.remove,
         ProfileOp.remove, ProfileOp.remove]) ∧
      removeProfile initialState = initialState :=
  ⟨(c10_editing_invariant
      [ProfileOp.add, ProfileOp.add, ProfileOp.remove, ProfileOp.remove, ProfileOp.remove]
      initialState (by decide)).1,
   (c10_editing_invariant
      [ProfileOp.add, ProfileOp.add, ProfileOp.remove, ProfileOp.remove, ProfileOp.remove]
      initialState (by decide)).2.2⟩

/-- C3: the modelled backend rejects any profile list whose names are not
pairwise distinct; whenever it accepts, the envelope keeps the whole list
(no last-write-wins dropping); and the UI passes the profile names through
to the save command unchanged, duplicates included. -/
theorem c3_duplicate_names_rejected (pass : String)
    (ps : List ProviderProfilePayload) (salt nonce : Nat)
    (h : ¬ (ps.map (·.name)).Nodup) :
    backendSave pass ps salt nonce = .error duplicateNamesMessage ∧
    (∀ (qs : List ProviderProfilePayload) (env : VaultEnvelope),
      backendSave pass qs salt nonce = .ok env → env.payload = qs) ∧
    (∀ s : UIState, (saveInvocation s).2.map (·.name) = s.profiles.map (·.name)) := by
  refine ⟨?_, ?_, ?_⟩
  · unfold backendSave
    rw [if_neg h]
  · intro qs env he
    unfold backendSave at he
    split at he
    · cases he; rfl
    · cases he
  · intro s
    simp [saveInvocation, List.map_map, Function.comp, toPayload]

/-- Witness for C3 at a concrete duplicate-name list. -/
theorem c3_duplicate_names_rejected_witness :
    backendSave "pw" [toPayload sampleProfile, toPayload sampleProfile] 3 4
      = .error duplicateNamesMessage :=
  (c3_duplicate_names_rejected "pw" [toPayload sampleProfile, toPayload sampleProfile]
    3 4 (by decide)).1

/-- C6 counterexample: the claim's four-member provider enumeration is
violated by the code — loading a payload whose provider is `cc-switch` (one
of the UI's own five select options) yields a profile outside the
enumeration, and loading even accepts provider strings outside the UI's own
choice set. -/
theorem c6_provider_enumeration_counterexample :
    (toLocalProfile
        { name := "CC relay", provider := "cc-switch"
        , base_url := "https://relay.example/v1", api_key := "k"
        , model := "glm-4.6", enabled := true }).provider = "cc-switch" ∧
    "cc-switch" ∉ specProviderKinds ∧
    "cc-switch" ∈ choiceValues ∧
    (toLocalProfile
        { name := "Custom", provider := "bogus-provider", base_url := "u"
        , api_key := "k", model := "m", enabled := true }).provider
      = "bogus-provider" ∧
    "bogus-provider" ∉ choiceValues := by
  exact ⟨rfl, by decide, by decide, rfl, by decide⟩

/-- C6 amended: provider kinds produced inside the UI are drawn from the
five-member select set {openai, claude, gemini, relay, cc-switch} — the
initial profile, added profiles, and provider edits through the select keep
every profile's provider in that set — while loading copies the payload's
provider string verbatim, without validation. -/
theorem c6_provider_values (s : UIState) (v : String) (hv : v ∈ choiceValues)
    (hall : allProvidersInChoices s.profiles) :
    allProvidersInChoices initialProfiles ∧
    (∀ n : Nat, (newProfileFor n).provider ∈ choiceValues) ∧
    allProvidersInChoices (addProfile s).profiles ∧
    allProvidersInChoices (setProviderField s v).profiles ∧
    (∀ q : ProviderProfilePayload, (toLocalProfile q).provider = q.provider) := by
  refine ⟨by decide, ?_, ?_, ?_, fun q => rfl⟩
  · intro n
    show "openai" ∈ choiceValues
    decide
  · intro p hp
    rcases List.mem_append.mp hp with hmem | hnew
    · exact hall p hmem
    · rcases List.mem_singleton.mp hnew with rfl
      show "openai" ∈ choiceValues
      decide
  · intro p hp
    unfold setProviderField at hp
    rcases List.mem_mapIdx.mp hp with ⟨i, hi, hval⟩
    by_cases hidx : i = s.activeProfileIndex
    · rw [if_pos hidx] at hval
      rw [← hval]
      exact hv
    · rw [if_neg hidx] at hval
      rw [← hval]
      exact hall _ (List.getElem_mem hi)

/-- Witness for C6 (amended) at the initial state and a concrete choice. -/
theorem c6_provider_values_witness :
    allProvidersInChoices (setProviderField initialState "claude").profiles :=
  (c6_provider_values initialState "claude" (by decide) (by decide)).2.2.2.1

/-- C7 counterexample: user-visible failures do not always carry a trace
identifier — the Tauri-runtime-unavailable failure and the non-`Error`
fallback both show fixed messages, identical across runs, whose text contains
no trace marker at all. -/
theorem c7_trace_id_counterexample :
    (handleLoadProfiles initialState
        (.error (some tauriUnavailableMessage))).statusMessage
      = tauriUnavailableMessage ∧
    (handleLoadProfiles (addProfile initialState)
        (.error (some tauriUnavailableMessage))).statusMessage
      = tauriUnavailableMessage ∧
    ¬ ("trace".toList <:+: tauriUnavailableMessage.toList) ∧
    (handleLoadProfiles initialState (.error none)).statusMessage
      = loadFallbackMessage ∧
    ¬ ("trace".toList <:+: loadFallbackMessage.toList) := by
  exact ⟨rfl, rfl, by decide, rfl, by decide⟩

/-- C7 amended: the UI shows the thrown error's message verbatim (or a fixed
fallback when the thrown value is not an `Error`), adding neither a trace
identifier nor anything else; so a user-visible failure carries a trace
identifier and error kind exactly when the backend error message already
does, and failures raised before reaching the backend carry none. -/
theorem c7_failure_message_verbatim (s : UIState) (msg : String) :
    (handleLoadProfiles s (.error (some msg))).statusMessage = msg ∧
    (handleSaveProfiles s (.error (some msg))).statusMessage = msg ∧
    (handleLoadProfiles s (.error none)).statusMessage = loadFallbackMessage ∧
    (handleSaveProfiles s (.error none)).statusMessage = saveFallbackMessage := by
  simp [handleLoadProfiles, handleSaveProfiles]

/-- Helper: with the runtime available, a load run against a present vault
is the handler applied to the backend outcome. -/
theorem loadRun_true_some (s : UIState) (env : VaultEnvelope) :
    loadRun s true (some env)
      = handleLoadProfiles s ((backendLoad s.passphrase env).mapError some) := rfl

/-- Helper: with the runtime available and no vault yet, a load run reports
an empty profile list. -/
theorem loadRun_true_none (s : UIState) :
    loadRun s true none = handleLoadProfiles s (.ok []) := rfl

/-- Helper: with the runtime available, a save run is the handler applied to
the backend outcome on the invocation arguments. -/
theorem saveRun_true (s : UIState) (salt nonce : Nat) :
    saveRun s true salt nonce
      = handleSaveProfiles s
          (((backendSave (saveInvocation s).1 (saveInvocation s).2 salt nonce).map
            fun _ => ()).mapError some) := rfl

/-- Helper: the load success message depends only on how many profiles were
returned. -/
theorem handleLoadProfiles_message_congr (s s' : UIState)
    (l l' : List ProviderProfilePayload) (h : l.length = l'.length) :
    (handleLoadProfiles s (.ok l)).statusMessage
      = (handleLoadProfiles s' (.ok l')).statusMessage := by
  by_cases h0 : l.length = 0
  · have h0' : l'.length = 0 := by omega
    simp [handleLoadProfiles, h0, h0']
  · have h0' : ¬ l'.length = 0 := by omega
    simp [handleLoadProfiles, h0, h0', h]

/-- Helper: payload lists agreeing up to API keys list the same names. -/
theorem payloadPublicAgree_names {l₁ l₂ : List ProviderProfilePayload}
    (h : payloadPublicAgree l₁ l₂) : l₁.map (·.name) = l₂.map (·.name) := by
  unfold payloadPublicAgree at h
  have h' := congrArg (List.map Prod.fst) h
  simpa [List.map_map, Function.comp, publicPayload] using h'

/-- Helper: UI profile lists agreeing up to API keys list the same names. -/
theorem publicAgree_names {l₁ l₂ : List LocalProfile}
    (h : publicAgree l₁ l₂) : l₁.map (·.name) = l₂.map (·.name) := by
  unfold publicAgree at h
  have h' := congrArg (List.map Prod.fst) h
  simpa [List.map_map, Function.comp, publicProfile] using h'

/-- C2: the user-visible status message of a load or save run never depends
on any profile's API key, the passphrase, or a derived key — two runs that
differ only in API key values and passphrases (with the persisted vaults in
corresponding states) produce identical status messages on every outcome. -/
theorem c2_status_message_secret_independence (s₁ s₂ : UIState) (av : Bool)
    (salt nonce : Nat) (v₁ v₂ : Option VaultEnvelope)
    (hp : publicAgree s₁.profiles s₂.profiles)
    (hv : vaultsCorrespond v₁ v₂ s₁.passphrase s₂.passphrase) :
    (saveRun s₁ av salt nonce).statusMessage
      = (saveRun s₂ av salt nonce).statusMessage ∧
    (loadRun s₁ av v₁).statusMessage = (loadRun s₂ av v₂).statusMessage := by
  have hnames : s₁.profiles.map (·.name) = s₂.profiles.map (·.name) :=
    publicAgree_names hp
  have hlen : s₁.profiles.length = s₂.profiles.length := by
    simpa using congrArg List.length hnames
  cases av with
  | false =>
    constructor <;> simp [saveRun, loadRun, handleSaveProfiles, handleLoadProfiles]
  | true =>
    constructor
    · have hn₁ : (saveInvocation s₁).2.map (·.name) = s₁.profiles.map (·.name) := by
        simp [saveInvocation, List.map_map, Function.comp, toPayload]
      have hn₂ : (saveInvocation s₂).2.map (·.name) = s₂.profiles.map (·.name) := by
        simp [saveInvocation, List.map_map, Function.comp, toPayload]
      rw [saveRun_true, saveRun_true]
      by_cases hd : ((saveInvocation s₁).2.map (·.name)).Nodup
      · have hd₂ : ((saveInvocation s₂).2.map (·.name)).Nodup := by
          rw [hn₂, ← hnames, ← hn₁]; exact hd
        unfold backendSave
        rw [if_pos hd, if_pos hd₂]
        simp [handleSaveProfiles, Except.map, Except.mapError, hlen]
      · have hd₂ : ¬ ((saveInvocation s₂).2.map (·.name)).Nodup := by
          rw [hn₂, ← hnames, ← hn₁]; exact hd
        unfold backendSave
        rw [if_neg hd, if_neg hd₂]
        simp [handleSaveProfiles, Except.map, Except.mapError]
    · rcases hv with ⟨rfl, rfl⟩ | ⟨e₁, e₂, rfl, rfl, hpa, htag⟩
      · rw [loadRun_true_none, loadRun_true_none]
        exact handleLoadProfiles_message_congr s₁ s₂ [] [] rfl
      · have hplen : e₁.payload.length = e₂.payload.length := by
          simpa using congrArg List.length (payloadPublicAgree_names hpa)
        rw [loadRun_true_some, loadRun_true_some]
        by_cases ht : deriveKey s₁.passphrase e₁.salt = e₁.tag
        · have ht₂ : deriveKey s₂.passphrase e₂.salt = e₂.tag := htag.mp ht
          unfold backendLoad
          rw [if_pos ht, if_pos ht₂]
          exact handleLoadProfiles_message_congr s₁ s₂ _ _ hplen
        · have ht₂ : ¬ deriveKey s₂.passphrase e₂.salt = e₂.tag :=
            fun hh => ht (htag.mpr hh)
          unfold backendLoad
          rw [if_neg ht, if_neg ht₂]
          simp [handleLoadProfiles, Except.mapError]

/-- Witness for C2 at two concrete states differing exactly in the API key
and the passphrase, with no vault persisted yet. -/
theorem c2_status_message_secret_independence_witness :
    (saveRun secretStateA true 0 0).statusMessage
        = (saveRun secretStateB true 0 0).statusMessage ∧
      (loadRun secretStateA true none).statusMessage
        = (loadRun secretStateB true none).statusMessage :=
  c2_status_message_secret_independence secretStateA secretStateB true 0 0 none none
    rfl (Or.inl ⟨rfl, rfl⟩)

end Ocr2Md
